import Mathlib

/-!
Verification development for the EthNEAR sovereign-bond marketplace backend
(`src/backend/server.py`).  The numeric computations of the backend are
embedded over exact rationals (`ℚ`); Python `round(x, 2)` is modelled as
round-half-to-even on the exact value, and calendar arithmetic is modelled
by day counts (`maturity_date` becomes a day number, `datetime.now()` a
rational day number, and `timedelta.days` the floor of the difference).
The document store (MongoDB) is modelled as in-memory lists with
first-match query/update semantics, mirroring `find_one` / `update_one` /
`replace_one(upsert=True)` / `insert_one`.
-/

namespace EthNEAR

/-- Round-half-to-even to an integer (Python `round(x)` on exact values). -/
def roundHalfEven (x : ℚ) : ℤ :=
  if Int.fract x < 1/2 then ⌊x⌋
  else if 1/2 < Int.fract x then ⌊x⌋ + 1
  else if ⌊x⌋ % 2 = 0 then ⌊x⌋ else ⌊x⌋ + 1

/-- Python `round(x, 2)`: round to two decimal places. -/
def roundTo2 (x : ℚ) : ℚ := (roundHalfEven (x * 100) : ℚ) / 100

theorem floor_le_roundHalfEven (x : ℚ) : ⌊x⌋ ≤ roundHalfEven x := by
  unfold roundHalfEven
  split_ifs <;> omega

theorem roundHalfEven_le_floor_add_one (x : ℚ) : roundHalfEven x ≤ ⌊x⌋ + 1 := by
  unfold roundHalfEven
  split_ifs <;> omega

theorem roundHalfEven_mono {x y : ℚ} (h : x ≤ y) :
    roundHalfEven x ≤ roundHalfEven y := by
  rcases lt_or_eq_of_le (Int.floor_mono h) with hlt | heq
  · calc roundHalfEven x ≤ ⌊x⌋ + 1 := roundHalfEven_le_floor_add_one x
      _ ≤ ⌊y⌋ := by omega
      _ ≤ roundHalfEven y := floor_le_roundHalfEven y
  · have hfr : Int.fract x ≤ Int.fract y := by
      unfold Int.fract
      rw [heq]
      exact sub_le_sub_right h _
    unfold roundHalfEven
    rw [heq]
    split_ifs <;> first | omega | linarith

theorem roundTo2_mono {x y : ℚ} (h : x ≤ y) : roundTo2 x ≤ roundTo2 y := by
  unfold roundTo2
  have h100 : x * 100 ≤ y * 100 := by linarith
  have := roundHalfEven_mono h100
  have hc : (roundHalfEven (x * 100) : ℚ) ≤ (roundHalfEven (y * 100) : ℚ) := by
    exact_mod_cast this
  linarith

theorem roundHalfEven_eq_low {x : ℚ} {n : ℤ} (h1 : (n : ℚ) ≤ x)
    (h2 : x < (n : ℚ) + 1/2) : roundHalfEven x = n := by
  have hf : ⌊x⌋ = n := by
    rw [Int.floor_eq_iff]
    exact ⟨h1, by linarith⟩
  have hfr : Int.fract x < 1/2 := by
    unfold Int.fract
    rw [hf]
    linarith
  unfold roundHalfEven
  rw [if_pos hfr]
  exact hf

theorem roundHalfEven_eq_high {x : ℚ} {n : ℤ} (h1 : (n : ℚ) + 1/2 < x)
    (h2 : x < (n : ℚ) + 1) : roundHalfEven x = n + 1 := by
  have hf : ⌊x⌋ = n := by
    rw [Int.floor_eq_iff]
    exact ⟨by linarith, by linarith⟩
  have hfr : 1/2 < Int.fract x := by
    unfold Int.fract
    rw [hf]
    linarith
  unfold roundHalfEven
  rw [if_neg (by linarith), if_pos hfr, hf]

/-- Evaluation: `roundTo2 x = n/100` when `x*100` lies in `[n, n + 1/2)`. -/
theorem roundTo2_eq_low (x : ℚ) (n : ℤ) (h1 : (n : ℚ) ≤ x * 100)
    (h2 : x * 100 < (n : ℚ) + 1/2) : roundTo2 x = (n : ℚ) / 100 := by
  unfold roundTo2
  rw [roundHalfEven_eq_low h1 h2]

/-- Evaluation: `roundTo2 x = (n+1)/100` when `x*100` lies in `(n + 1/2, n + 1)`. -/
theorem roundTo2_eq_high (x : ℚ) (n : ℤ) (h1 : (n : ℚ) + 1/2 < x * 100)
    (h2 : x * 100 < (n : ℚ) + 1) : roundTo2 x = ((n : ℚ) + 1) / 100 := by
  unfold roundTo2
  rw [roundHalfEven_eq_high h1 h2]
  push_cast
  ring

/-! ### Data model (server.py, `class Bond` / `Portfolio` / `BondTransaction` /
`TradeRequest`).  Numeric fields are rationals; `maturity_date` is a day
number.  `id` fields generated by `uuid.uuid4()` are opaque strings whose
generation is external randomness and is not modelled. -/

structure Bond where
  id : String
  country : String
  country_code : String
  face_value : ℚ
  coupon_rate : ℚ
  maturity_days : ℤ
  issue_date : String
  current_price : ℚ
  risk_factor : ℚ
  currency : String
  total_supply : ℚ
  available_supply : ℚ
  deriving DecidableEq

structure Portfolio where
  user_address : String
  bonds : List (String × ℚ)
  total_value : ℚ
  total_yield : ℚ
  created_at : ℚ
  deriving DecidableEq

structure BondTransaction where
  user_address : String
  bond_id : String
  transaction_type : String
  quantity : ℚ
  price_per_bond : ℚ
  total_amount : ℚ
  timestamp : ℚ
  deriving DecidableEq

structure TradeRequest where
  user_address : String
  bond_id : String
  quantity : ℚ
  transaction_type : String
  deriving DecidableEq

/-! ### Risk engine (server.py lines 124-153) -/

/-- `calculate_dynamic_yield` with the day difference
`(maturity_date - datetime.now()).days` passed as `days`. -/
def dynamicYieldDays (coupon_rate risk_factor : ℚ) (days : ℤ) : ℚ :=
  let base_yield := coupon_rate
  let risk_adjusted_yield := base_yield * (1 + risk_factor / 100)
  let years_to_maturity := (days : ℚ) / (1461/4)
  let maturity_adjustment := max 0 (years_to_maturity - 2) * (3/10)
  roundTo2 (risk_adjusted_yield + maturity_adjustment)

/-- `calculate_dynamic_yield(bond)` at current time `now` (in days);
`timedelta.days` is the floor of the day difference. -/
def calculate_dynamic_yield (bond : Bond) (now : ℚ) : ℚ :=
  dynamicYieldDays bond.coupon_rate bond.risk_factor ⌊(bond.maturity_days : ℚ) - now⌋

/-- With at most two years (730 days) to maturity the maturity adjustment
vanishes. -/
theorem dynamicYieldDays_no_maturity_adj (c r : ℚ) (days : ℤ)
    (h : (days : ℚ) ≤ 730) :
    dynamicYieldDays c r days = roundTo2 (c * (1 + r / 100)) := by
  simp only [dynamicYieldDays]
  rw [max_eq_left (by
    rw [sub_nonpos, div_le_iff₀ (by norm_num : (0:ℚ) < 1461/4)]
    linarith)]
  rw [zero_mul, add_zero]

/-- `calculate_bond_price(bond, market_demand)` (server.py lines 138-153). -/
def calculate_bond_price (bond : Bond) (market_demand : ℚ) : ℚ :=
  let base_price := bond.current_price
  let scarcity_factor := 1 - bond.available_supply / bond.total_supply
  let scarcity_adjustment := scarcity_factor * 50
  let risk_discount := bond.risk_factor * 10
  let demand_adjustment := (market_demand - 1) * 25
  let final_price := base_price + scarcity_adjustment - risk_discount + demand_adjustment
  max final_price (bond.face_value * (7/10))

/-! ### Document store and trade settlement (server.py lines 222-310).
The three MongoDB collections become three lists; `find_one` finds the
first matching document, `update_one` with `$set` updates the first
matching document, `insert_one` appends, and `replace_one(upsert=True)`
replaces the first matching document or appends. -/

structure ServerState where
  bonds : List Bond
  transactions : List BondTransaction
  portfolios : List Portfolio
  deriving DecidableEq

/-- `db.bonds.find_one({"id": bondId})`. -/
def findBond (bonds : List Bond) (bondId : String) : Option Bond :=
  bonds.find? (fun b => b.id = bondId)

/-- `db.bonds.update_one({"id": bondId}, {"$set": {"available_supply": v}})`. -/
def setAvailableFirst (bondId : String) (v : ℚ) : List Bond → List Bond
  | [] => []
  | b :: bs =>
    if b.id = bondId then { b with available_supply := v } :: bs
    else b :: setAvailableFirst bondId v bs

/-- `db.portfolios.find_one({"user_address": addr})`. -/
def findPortfolio (ps : List Portfolio) (addr : String) : Option Portfolio :=
  ps.find? (fun p => p.user_address = addr)

/-- `db.portfolios.replace_one({"user_address": addr}, p, upsert=True)`. -/
def replacePortfolioFirst (addr : String) (p : Portfolio) : List Portfolio → List Portfolio
  | [] => [p]
  | q :: qs =>
    if q.user_address = addr then p :: qs
    else q :: replacePortfolioFirst addr p qs

/-! Python `dict` operations on `portfolio.bonds` (bond_id -> quantity),
modelled as an insertion-ordered association list. -/

/-- `bond_id in portfolio.bonds`. -/
def dictContains (d : List (String × ℚ)) (k : String) : Bool :=
  d.any (fun e => e.1 = k)

/-- `portfolio.bonds[k]` (0 when absent; reads in the settlement code only
happen on present keys). -/
def dictGet (d : List (String × ℚ)) (k : String) : ℚ :=
  ((d.find? (fun e => e.1 = k)).map Prod.snd).getD 0

/-- `portfolio.bonds[k] = v`: update in place, else append (Python dicts
preserve insertion order). -/
def dictSet (k : String) (v : ℚ) : List (String × ℚ) → List (String × ℚ)
  | [] => [(k, v)]
  | e :: es => if e.1 = k then (k, v) :: es else e :: dictSet k v es

/-- `del portfolio.bonds[k]`. -/
def dictDelete (k : String) : List (String × ℚ) → List (String × ℚ)
  | [] => []
  | e :: es => if e.1 = k then es else e :: dictDelete k es

/-- Holdings update, server.py lines 272-280: ensure the key exists, add
the quantity on buy, subtract on any other side and delete the key when
the result is `<= 0`. -/
def updateHoldings (bondId ttype : String) (qty : ℚ)
    (d : List (String × ℚ)) : List (String × ℚ) :=
  let d0 := if dictContains d bondId then d else dictSet bondId 0 d
  if ttype = "buy" then
    dictSet bondId (dictGet d0 bondId + qty) d0
  else
    let d1 := dictSet bondId (dictGet d0 bondId - qty) d0
    if dictGet d1 bondId ≤ 0 then dictDelete bondId d1 else d1

/-- Portfolio recomputation loop, server.py lines 282-292: running
accumulators `(total_value, total_yield)`; the yield term divides by the
value accumulated so far (after adding the current holding). -/
def recomputeTotals (bonds : List Bond) (now : ℚ) :
    List (String × ℚ) → ℚ × ℚ → ℚ × ℚ
  | [], acc => acc
  | (bondId, quantity) :: rest, (total_value, total_yield) =>
    match findBond bonds bondId with
    | none => recomputeTotals bonds now rest (total_value, total_yield)
    | some bond_obj =>
      let total_value' := total_value + bond_obj.current_price * quantity
      let bond_yield := calculate_dynamic_yield bond_obj now
      let total_yield' := total_yield +
        (if 0 < total_value' then
          bond_yield * (bond_obj.current_price * quantity) / total_value'
        else 0)
      recomputeTotals bonds now rest (total_value', total_yield')

/-- The errors `execute_trade` actually raises: HTTP 404 "Bond not found"
and HTTP 400 "Insufficient bond supply". -/
inductive TradeError where
  | bondNotFound
  | insufficientSupply
  deriving DecidableEq

structure TradeReceipt where
  trade_price : ℚ
  total_amount : ℚ
  new_portfolio_value : ℚ
  deriving DecidableEq

/-- `execute_trade(trade)` (server.py lines 222-310) at current time
`now`, acting on the in-memory store state. -/
def execute_trade (trade : TradeRequest) (st : ServerState) (now : ℚ) :
    Except TradeError (ServerState × TradeReceipt) :=
  match findBond st.bonds trade.bond_id with
  | none => .error .bondNotFound
  | some bond =>
    if trade.transaction_type = "buy" ∧ trade.quantity > bond.available_supply then
      .error .insufficientSupply
    else
      let trade_price := calculate_bond_price bond 1
      let total_amount := trade_price * trade.quantity
      let transaction : BondTransaction :=
        { user_address := trade.user_address
          bond_id := trade.bond_id
          transaction_type := trade.transaction_type
          quantity := trade.quantity
          price_per_bond := trade_price
          total_amount := total_amount
          timestamp := now }
      let transactions' := st.transactions ++ [transaction]
      let new_available_supply :=
        if trade.transaction_type = "buy" then bond.available_supply - trade.quantity
        else bond.available_supply + trade.quantity
      let bonds' := setAvailableFirst trade.bond_id new_available_supply st.bonds
      let portfolio :=
        match findPortfolio st.portfolios trade.user_address with
        | some p => p
        | none =>
          { user_address := trade.user_address, bonds := []
            total_value := 0, total_yield := 0, created_at := now }
      let holdings' := updateHoldings trade.bond_id trade.transaction_type trade.quantity portfolio.bonds
      let totals := recomputeTotals bonds' now holdings' (0, 0)
      let portfolio' :=
        { portfolio with bonds := holdings'
                         total_value := roundTo2 totals.1
                         total_yield := roundTo2 totals.2 }
      let portfolios' := replacePortfolioFirst trade.user_address portfolio' st.portfolios
      .ok ({ bonds := bonds', transactions := transactions', portfolios := portfolios' },
           { trade_price := trade_price
             total_amount := total_amount
             new_portfolio_value := portfolio'.total_value })

/-- State reached by a settlement result (the empty store on error; error
paths are only inspected through `Except.isOk`). -/
def postState (e : Except TradeError (ServerState × TradeReceipt)) : ServerState :=
  match e with
  | .ok (st, _) => st
  | .error _ => { bonds := [], transactions := [], portfolios := [] }

def emptyPortfolio : Portfolio :=
  { user_address := "", bonds := [], total_value := 0, total_yield := 0, created_at := 0 }

/-! ### Market statistics (server.py lines 349-367).  Both
`db.bonds.find().to_list(1000)` and `db.transactions.find().to_list(1000)`
cap the fetched documents at 1000; time is in days, so the 24-hour window
is `now - timestamp < 1`. -/

structure MarketStats where
  total_market_value : ℚ
  total_volume_24h : ℚ
  average_yield : ℚ
  active_bonds : ℕ
  total_transactions : ℕ
  deriving DecidableEq

def get_market_stats (allBonds : List Bond) (allTxs : List BondTransaction)
    (now : ℚ) : MarketStats :=
  let bonds := allBonds.take 1000
  let transactions := allTxs.take 1000
  let total_market_value := (bonds.map (fun b => b.current_price * b.total_supply)).sum
  let total_volume_24h :=
    ((transactions.filter (fun tx => now - tx.timestamp < 1)).map
      (fun tx => tx.total_amount)).sum
  let avg_yield :=
    if bonds.isEmpty then 0
    else (bonds.map (fun b => calculate_dynamic_yield b now)).sum / bonds.length
  { total_market_value := roundTo2 total_market_value
    total_volume_24h := roundTo2 total_volume_24h
    average_yield := roundTo2 avg_yield
    active_bonds := bonds.length
    total_transactions := transactions.length }

/-! ### Claim-side formulas (written from the specification text, to be
compared with the embedded source functions). -/

/-- Spec formula for the Pricing Engine, steps 1-4 plus the floor of step 5
(no rounding): `max(current_price + (1 − available/total)×50 − risk×10 +
(demand−1)×25, face_value × 0.7)`. -/
def priceFormulaSpec (bond : Bond) (demand_signal : ℚ) : ℚ :=
  max (bond.current_price + (1 - bond.available_supply / bond.total_supply) * 50
        - bond.risk_factor * 10 + (demand_signal - 1) * 25)
      (bond.face_value * (7/10))

/-- Spec formula for the Pricing Engine as literally claimed: the floored
price rounded to 2 decimal places. -/
def priceFormulaSpecRounded (bond : Bond) (demand_signal : ℚ) : ℚ :=
  roundTo2 (priceFormulaSpec bond demand_signal)

/-- Spec formula for the Yield Engine:
`round(coupon_rate × (1 + risk_factor/100) + max(0, years_to_maturity − 2) × 0.3, 2)`
with `years_to_maturity = (maturity_date − current_date) in days / 365.25`,
not clamped at zero. -/
def yieldFormulaSpec (bond : Bond) (now : ℚ) : ℚ :=
  roundTo2 (bond.coupon_rate * (1 + bond.risk_factor / 100) +
    max 0 (((⌊(bond.maturity_days : ℚ) - now⌋ : ℤ) : ℚ) / (1461/4) - 2) * (3/10))

/-! ### C3: price floor -/

/-- C3: for every bond (with a positive total supply, so that the source
division is defined) and every demand signal, the Pricing Engine result is
at least `face_value × 0.7`. -/
theorem C3_price_floor (bond : Bond) (demand : ℚ)
    (h : 0 < bond.total_supply) :
    bond.face_value * (7/10) ≤ calculate_bond_price bond demand := by
  unfold calculate_bond_price
  exact le_max_right _ _

def ghanaBond : Bond :=
  { id := "gh", country := "Ghana", country_code := "GH", face_value := 1000
    coupon_rate := 15/2, maturity_days := 21914, issue_date := "2024-01-01"
    current_price := 950, risk_factor := 23/10, currency := "USD"
    total_supply := 10000, available_supply := 7500 }

/-- Witness for C3 at the seeded Ghana bond. -/
theorem C3_price_floor_witness :
    0 < ghanaBond.total_supply ∧
      ghanaBond.face_value * (7/10) ≤ calculate_bond_price ghanaBond 1 :=
  ⟨by norm_num [ghanaBond], C3_price_floor ghanaBond 1 (by norm_num [ghanaBond])⟩

/-! ### C4: the Pricing Engine does not round -/

def roundGapBond : Bond :=
  { id := "rg", country := "X", country_code := "XX", face_value := 1000
    coupon_rate := 5, maturity_days := 0, issue_date := "2024-01-01"
    current_price := 1000, risk_factor := 1/10000, currency := "USD"
    total_supply := 1000, available_supply := 1000 }

/-- C4 counterexample: on a bond whose raw price is `999.999`, the source
pricing function returns the unrounded value, not the claimed
2-decimal rounding (`1000`). -/
theorem C4_price_rounding_counterexample :
    calculate_bond_price roundGapBond 1 ≠ priceFormulaSpecRounded roundGapBond 1 ∧
      calculate_bond_price roundGapBond 1 = 999999/1000 := by
  have hv : calculate_bond_price roundGapBond 1 = 999999/1000 := by
    simp only [calculate_bond_price, roundGapBond]
    rw [max_eq_left (by norm_num)]
    norm_num
  have hs : priceFormulaSpec roundGapBond 1 = 999999/1000 := by
    simp only [priceFormulaSpec, roundGapBond]
    rw [max_eq_left (by norm_num)]
    norm_num
  have hr : priceFormulaSpecRounded roundGapBond 1 = 1000 := by
    unfold priceFormulaSpecRounded
    rw [hs, roundTo2_eq_high (999999/1000) 99999 (by norm_num) (by norm_num)]
    norm_num
  refine ⟨?_, hv⟩
  rw [hv, hr]
  norm_num

/-- C4 (amended): the Pricing Engine returns
`max(current_price + (1 − available/total)×50 − risk×10 + (demand−1)×25,
face_value × 0.7)` with no rounding. -/
theorem C4_price_formula (bond : Bond) (demand : ℚ)
    (h : 0 < bond.total_supply) :
    calculate_bond_price bond demand = priceFormulaSpec bond demand := rfl

/-- Witness for C4 at the seeded Ghana bond. -/
theorem C4_price_formula_witness :
    0 < ghanaBond.total_supply ∧
      calculate_bond_price ghanaBond 1 = priceFormulaSpec ghanaBond 1 :=
  ⟨by norm_num [ghanaBond], C4_price_formula ghanaBond 1 (by norm_num [ghanaBond])⟩

/-! ### C5: yield formula -/

/-- C5: the Yield Engine computes
`round(coupon_rate × (1 + risk_factor/100) + max(0, years_to_maturity − 2) × 0.3, 2)`
where `years_to_maturity` is the signed day difference over 365.25, not
clamped for matured bonds. -/
theorem C5_yield_formula (bond : Bond) (now : ℚ) :
    calculate_dynamic_yield bond now = yieldFormulaSpec bond now := rfl

/-! ### C8: yield monotone in risk factor -/

def negCouponLowRisk : Bond :=
  { id := "nc", country := "X", country_code := "XX", face_value := 1000
    coupon_rate := -100, maturity_days := 0, issue_date := "2024-01-01"
    current_price := 900, risk_factor := 0, currency := "USD"
    total_supply := 10, available_supply := 10 }

def negCouponHighRisk : Bond :=
  { negCouponLowRisk with risk_factor := 100 }

/-- C8 counterexample: two bonds identical except for `risk_factor`, with a
negative coupon rate; the higher-risk bond gets the strictly smaller yield,
so yield is not non-decreasing in `risk_factor` over all bonds. -/
theorem C8_monotone_counterexample :
    negCouponHighRisk.coupon_rate = negCouponLowRisk.coupon_rate ∧
      negCouponHighRisk.maturity_days = negCouponLowRisk.maturity_days ∧
      negCouponLowRisk.risk_factor ≤ negCouponHighRisk.risk_factor ∧
      ¬ calculate_dynamic_yield negCouponLowRisk 0 ≤
          calculate_dynamic_yield negCouponHighRisk 0 := by
  have ha : calculate_dynamic_yield negCouponLowRisk 0 = -100 := by
    simp only [calculate_dynamic_yield, negCouponLowRisk]
    norm_num
    rw [dynamicYieldDays_no_maturity_adj _ _ _ (by norm_num)]
    norm_num
    rw [roundTo2_eq_low (-100) (-10000) (by norm_num) (by norm_num)]
    norm_num
  have hb : calculate_dynamic_yield negCouponHighRisk 0 = -200 := by
    simp only [calculate_dynamic_yield, negCouponHighRisk, negCouponLowRisk]
    norm_num
    rw [dynamicYieldDays_no_maturity_adj _ _ _ (by norm_num)]
    norm_num
    rw [roundTo2_eq_low (-200) (-20000) (by norm_num) (by norm_num)]
    norm_num
  refine ⟨rfl, rfl, by norm_num [negCouponLowRisk, negCouponHighRisk], ?_⟩
  rw [ha, hb]
  norm_num

/-- C8 (amended): for two bonds identical except for `risk_factor`, with a
non-negative coupon rate, the Yield Engine is non-decreasing in
`risk_factor` at every evaluation date. -/
theorem C8_yield_monotone_in_risk (b b' : Bond) (now : ℚ)
    (hc : b'.coupon_rate = b.coupon_rate)
    (hm : b'.maturity_days = b.maturity_days)
    (hcoup : 0 ≤ b.coupon_rate)
    (hr : b.risk_factor ≤ b'.risk_factor) :
    calculate_dynamic_yield b now ≤ calculate_dynamic_yield b' now := by
  have h1 : b.coupon_rate * (1 + b.risk_factor / 100) ≤
      b.coupon_rate * (1 + b'.risk_factor / 100) :=
    mul_le_mul_of_nonneg_left (by linarith) hcoup
  simp only [calculate_dynamic_yield, dynamicYieldDays, hc, hm]
  exact roundTo2_mono (by linarith)

def ghanaHigherRisk : Bond :=
  { ghanaBond with risk_factor := 5 }

/-- Witness for C8 at the Ghana bond against a higher-risk copy. -/
theorem C8_yield_monotone_in_risk_witness :
    (ghanaHigherRisk.coupon_rate = ghanaBond.coupon_rate ∧
        ghanaHigherRisk.maturity_days = ghanaBond.maturity_days ∧
        0 ≤ ghanaBond.coupon_rate ∧
        ghanaBond.risk_factor ≤ ghanaHigherRisk.risk_factor) ∧
      calculate_dynamic_yield ghanaBond 0 ≤ calculate_dynamic_yield ghanaHigherRisk 0 :=
  ⟨⟨rfl, rfl, by norm_num [ghanaBond], by norm_num [ghanaBond, ghanaHigherRisk]⟩,
    C8_yield_monotone_in_risk ghanaBond ghanaHigherRisk 0
      rfl rfl (by norm_num [ghanaBond]) (by norm_num [ghanaBond, ghanaHigherRisk])⟩

/-! ### C1: supply invariant across settlement -/

/-- The Bond Catalog invariant `0 ≤ available_supply ≤ total_supply`. -/
def bondSupplyInvariant (b : Bond) : Prop :=
  0 ≤ b.available_supply ∧ b.available_supply ≤ b.total_supply

/-- The supply invariant for every bond in the store. -/
def supplyInvariant (st : ServerState) : Prop :=
  ∀ b ∈ st.bonds, bondSupplyInvariant b

def sellBond : Bond :=
  { id := "sb", country := "X", country_code := "XX", face_value := 1000
    coupon_rate := 5, maturity_days := 0, issue_date := "2024-01-01"
    current_price := 900, risk_factor := 1, currency := "USD"
    total_supply := 10, available_supply := 10 }

def sellState : ServerState :=
  { bonds := [sellBond], transactions := [], portfolios := [] }

def sellTrade : TradeRequest :=
  { user_address := "u", bond_id := "sb", quantity := 5, transaction_type := "sell" }

/-- C1 (failing run): from a state whose only bond has
`available_supply = total_supply = 10`, a sell of 5 units settles
successfully and leaves `available_supply = 15 > total_supply`, because the
sell side adds the quantity back without any holdings or upper-bound
check.  The claimed invariant is not preserved by `execute_trade`. -/
theorem C1_supply_invariant_violated :
    supplyInvariant sellState ∧
    (execute_trade sellTrade sellState 0).isOk = true ∧
    ¬ supplyInvariant (postState (execute_trade sellTrade sellState 0)) := by
  simp only [supplyInvariant, bondSupplyInvariant, execute_trade, findBond, findPortfolio,
    setAvailableFirst, replacePortfolioFirst, updateHoldings, dictContains, dictGet,
    dictSet, dictDelete, recomputeTotals, postState, sellState, sellBond, sellTrade,
    List.find?, List.any, Except.isOk, Except.toBool, String.reduceEq, reduceIte,
    decide_True, decide_False, Bool.false_or, Option.map, Option.getD,
    List.mem_cons, List.not_mem_nil, forall_eq_or_imp, forall_eq]
  norm_num

/-! ### C2: selling more than held -/

def oversellBond : Bond :=
  { id := "ob", country := "X", country_code := "XX", face_value := 1000
    coupon_rate := 5, maturity_days := 0, issue_date := "2024-01-01"
    current_price := 900, risk_factor := 1, currency := "USD"
    total_supply := 20, available_supply := 10 }

def oversellHolder : Portfolio :=
  { user_address := "u", bonds := [("ob", 2)], total_value := 1800
    total_yield := 5, created_at := 0 }

def oversellState : ServerState :=
  { bonds := [oversellBond], transactions := [], portfolios := [oversellHolder] }

def oversellTrade : TradeRequest :=
  { user_address := "u", bond_id := "ob", quantity := 5, transaction_type := "sell" }

/-- C2 (failing run): the user holds 2 units and sells 5; the settlement
succeeds (no `InsufficientHoldings` failure), appends a transaction,
mutates the bond supply, and the negative holding silently vanishes from
the portfolio. -/
theorem C2_sell_without_holdings_accepted :
    dictGet oversellHolder.bonds "ob" = 2 ∧
    oversellTrade.quantity = 5 ∧
    (execute_trade oversellTrade oversellState 0).isOk = true ∧
    (postState (execute_trade oversellTrade oversellState 0)).transactions.length =
      oversellState.transactions.length + 1 ∧
    ((postState (execute_trade oversellTrade oversellState 0)).bonds.map
      Bond.available_supply) = [15] ∧
    ((findPortfolio (postState (execute_trade oversellTrade oversellState 0)).portfolios
      "u").map Portfolio.bonds) = some [] := by
  simp only [execute_trade, findBond, findPortfolio,
    setAvailableFirst, replacePortfolioFirst, updateHoldings, dictContains, dictGet,
    dictSet, dictDelete, recomputeTotals, postState, oversellState, oversellBond,
    oversellHolder, oversellTrade,
    List.find?, List.any, Except.isOk, Except.toBool, String.reduceEq, reduceIte,
    decide_True, decide_False, Bool.false_or, Option.map, Option.getD,
    List.map_cons, List.map_nil, List.length_append, List.length_cons, List.length_nil]
  norm_num

/-! ### C7: no validation of quantity or transaction type -/

def c7Bond : Bond :=
  { id := "hb", country := "X", country_code := "XX", face_value := 1000
    coupon_rate := 5, maturity_days := 0, issue_date := "2024-01-01"
    current_price := 900, risk_factor := 1, currency := "USD"
    total_supply := 20, available_supply := 10 }

def c7State : ServerState :=
  { bonds := [c7Bond], transactions := [], portfolios := [] }

def holdTrade : TradeRequest :=
  { user_address := "u", bond_id := "hb", quantity := 3, transaction_type := "hold" }

def negBuyTrade : TradeRequest :=
  { user_address := "u", bond_id := "hb", quantity := -2, transaction_type := "buy" }

/-- C7 (failing runs): a trade with the unknown transaction type `"hold"`
is settled as a sell (supply `10 + 3 = 13`) and a buy with the negative
quantity `-2` is settled as well (supply `10 - (-2) = 12`); both mutate
state instead of failing with `InvalidTrade`. -/
theorem C7_invalid_trade_accepted :
    holdTrade.transaction_type ≠ "buy" ∧
    holdTrade.transaction_type ≠ "sell" ∧
    (execute_trade holdTrade c7State 0).isOk = true ∧
    (postState (execute_trade holdTrade c7State 0)).transactions.length = 1 ∧
    ((postState (execute_trade holdTrade c7State 0)).bonds.map
      Bond.available_supply) = [13] ∧
    negBuyTrade.quantity < 0 ∧
    (execute_trade negBuyTrade c7State 0).isOk = true ∧
    ((postState (execute_trade negBuyTrade c7State 0)).bonds.map
      Bond.available_supply) = [12] := by
  simp only [execute_trade, findBond, findPortfolio,
    setAvailableFirst, replacePortfolioFirst, updateHoldings, dictContains, dictGet,
    dictSet, dictDelete, recomputeTotals, postState, c7State, c7Bond,
    holdTrade, negBuyTrade,
    List.find?, List.any, Except.isOk, Except.toBool, String.reduceEq, reduceIte,
    decide_True, decide_False, Bool.false_or, Option.map, Option.getD,
    List.map_cons, List.map_nil, List.length_append, List.length_cons, List.length_nil]
  norm_num
  exact ⟨by simp, by simp⟩

/-! ### C10: frame of a successful settlement -/

/-- Equality of all `Bond` fields except `available_supply`. -/
def sameExceptSupply (b b' : Bond) : Prop :=
  b'.id = b.id ∧ b'.country = b.country ∧ b'.country_code = b.country_code ∧
  b'.face_value = b.face_value ∧ b'.coupon_rate = b.coupon_rate ∧
  b'.maturity_days = b.maturity_days ∧ b'.issue_date = b.issue_date ∧
  b'.current_price = b.current_price ∧ b'.risk_factor = b.risk_factor ∧
  b'.currency = b.currency ∧ b'.total_supply = b.total_supply

theorem sameExceptSupply_refl (b : Bond) : sameExceptSupply b b :=
  ⟨rfl, rfl, rfl, rfl, rfl, rfl, rfl, rfl, rfl, rfl, rfl⟩

/-- `setAvailableFirst` touches at most the `available_supply` of the first
bond with the given id and leaves every other bond entirely unchanged. -/
theorem setAvailableFirst_frame (bondId : String) (v : ℚ) (l : List Bond) :
    List.Forall₂ (fun b b' => sameExceptSupply b b' ∧ (b.id ≠ bondId → b' = b))
      l (setAvailableFirst bondId v l) := by
  induction l with
  | nil => exact List.Forall₂.nil
  | cons b bs ih =>
    by_cases h : b.id = bondId
    · simp only [setAvailableFirst, if_pos h]
      refine List.Forall₂.cons ⟨sameExceptSupply_refl b, fun hne => absurd h hne⟩ ?_
      rw [List.forall₂_same]
      intro x _
      exact ⟨sameExceptSupply_refl x, fun _ => rfl⟩
    · simp only [setAvailableFirst, if_neg h]
      exact List.Forall₂.cons ⟨sameExceptSupply_refl b, fun _ => rfl⟩ ih

/-- Replacing/upserting the portfolio of `addr` leaves the portfolios of
every other user unchanged. -/
theorem replacePortfolioFirst_frame (addr : String) (p : Portfolio)
    (ps : List Portfolio) (hp : p.user_address = addr) :
    (replacePortfolioFirst addr p ps).filter (fun q => q.user_address ≠ addr) =
      ps.filter (fun q => q.user_address ≠ addr) := by
  induction ps with
  | nil =>
    simp [replacePortfolioFirst, List.filter, hp]
  | cons q qs ih =>
    by_cases h : q.user_address = addr
    · simp [replacePortfolioFirst, List.filter_cons, hp, h]
    · simp only [decide_not] at ih
      simp [replacePortfolioFirst, List.filter_cons, h, decide_not, ih]

theorem portfolio_address_of_find {ps : List Portfolio} {addr : String}
    {p : Portfolio} (h : findPortfolio ps addr = some p) :
    p.user_address = addr := by
  unfold findPortfolio at h
  simpa using List.find?_some h

/-- C10: a successful `execute_trade` changes at most the
`available_supply` of the (first) bond with the traded id — in particular
no bond's `current_price` is written — and leaves the portfolio list of
every user other than the requester unchanged. -/
theorem C10_trade_frame (t : TradeRequest) (st : ServerState) (now : ℚ)
    (h : (execute_trade t st now).isOk = true) :
    List.Forall₂ (fun b b' => sameExceptSupply b b' ∧ (b.id ≠ t.bond_id → b' = b))
      st.bonds (postState (execute_trade t st now)).bonds ∧
    (postState (execute_trade t st now)).portfolios.filter
        (fun q => q.user_address ≠ t.user_address) =
      st.portfolios.filter (fun q => q.user_address ≠ t.user_address) := by
  cases hfb : findBond st.bonds t.bond_id with
  | none =>
    rw [execute_trade, hfb] at h
    simp [Except.isOk, Except.toBool] at h
  | some bond =>
    by_cases hc : t.transaction_type = "buy" ∧ t.quantity > bond.available_supply
    · rw [execute_trade, hfb] at h
      simp only [if_pos hc] at h
      simp [Except.isOk, Except.toBool] at h
    · cases hfp : findPortfolio st.portfolios t.user_address with
      | none =>
        simp only [execute_trade, hfb, if_neg hc, hfp, postState]
        exact ⟨setAvailableFirst_frame _ _ _,
          replacePortfolioFirst_frame _ _ _ rfl⟩
      | some p =>
        simp only [execute_trade, hfb, if_neg hc, hfp, postState]
        exact ⟨setAvailableFirst_frame _ _ _,
          replacePortfolioFirst_frame _ _ _
            (by simpa using portfolio_address_of_find hfp)⟩

def frameOtherBond : Bond :=
  { id := "fo", country := "Y", country_code := "YY", face_value := 1000
    coupon_rate := 6, maturity_days := 0, issue_date := "2024-01-01"
    current_price := 920, risk_factor := 2, currency := "USD"
    total_supply := 30, available_supply := 25 }

def frameBond : Bond :=
  { id := "fb", country := "X", country_code := "XX", face_value := 1000
    coupon_rate := 5, maturity_days := 0, issue_date := "2024-01-01"
    current_price := 900, risk_factor := 1, currency := "USD"
    total_supply := 20, available_supply := 10 }

def frameOtherPortfolio : Portfolio :=
  { user_address := "v", bonds := [("fo", 3)], total_value := 2760
    total_yield := 6, created_at := 0 }

def frameState : ServerState :=
  { bonds := [frameOtherBond, frameBond], transactions := []
    portfolios := [frameOtherPortfolio] }

def frameTrade : TradeRequest :=
  { user_address := "u", bond_id := "fb", quantity := 4, transaction_type := "buy" }

/-- Witness for C10: a successful buy of 4 units in a two-bond store with
another user's portfolio present. -/
theorem C10_trade_frame_witness :
    (execute_trade frameTrade frameState 0).isOk = true ∧
    (List.Forall₂
        (fun b b' => sameExceptSupply b b' ∧ (b.id ≠ frameTrade.bond_id → b' = b))
        frameState.bonds (postState (execute_trade frameTrade frameState 0)).bonds ∧
      (postState (execute_trade frameTrade frameState 0)).portfolios.filter
          (fun q => q.user_address ≠ frameTrade.user_address) =
        frameState.portfolios.filter
          (fun q => q.user_address ≠ frameTrade.user_address)) :=
  ⟨by
    simp only [execute_trade, findBond, findPortfolio,
      setAvailableFirst, replacePortfolioFirst, updateHoldings, dictContains, dictGet,
      dictSet, dictDelete, recomputeTotals, postState, frameState, frameBond,
      frameOtherBond, frameOtherPortfolio, frameTrade,
      List.find?, List.any, Except.isOk, Except.toBool, String.reduceEq, reduceIte,
      decide_True, decide_False, Bool.false_or, Option.map, Option.getD]
    norm_num,
    C10_trade_frame frameTrade frameState 0 (by
      simp only [execute_trade, findBond, findPortfolio,
        setAvailableFirst, replacePortfolioFirst, updateHoldings, dictContains, dictGet,
        dictSet, dictDelete, recomputeTotals, postState, frameState, frameBond,
        frameOtherBond, frameOtherPortfolio, frameTrade,
        List.find?, List.any, Except.isOk, Except.toBool, String.reduceEq, reduceIte,
        decide_True, decide_False, Bool.false_or, Option.map, Option.getD]
      norm_num)⟩

/-! ### C9: market statistics -/

def capTx : BondTransaction :=
  { user_address := "u", bond_id := "b", transaction_type := "buy", quantity := 1
    price_per_bond := 1, total_amount := 1, timestamp := 0 }

/-- A transaction log longer than the fetch cap of
`db.transactions.find().to_list(1000)`. -/
def bigLog : List BondTransaction := List.replicate 1001 capTx

/-- C9 counterexample: with 1001 logged transactions the endpoint reports
`total_transactions = 1000`, not the full log size, because both store
reads are capped at 1000 documents. -/
theorem C9_cap_counterexample :
    bigLog.length = 1001 ∧
    (get_market_stats [] bigLog 0).total_transactions = 1000 ∧
    (get_market_stats [] bigLog 0).total_transactions ≠ bigLog.length := by
  have h1 : bigLog.length = 1001 := by rw [bigLog, List.length_replicate]
  have h2 : (get_market_stats [] bigLog 0).total_transactions = 1000 := by
    simp only [get_market_stats, bigLog]
    rw [List.take_replicate, List.length_replicate]
    omega
  exact ⟨h1, h2, by rw [h2, h1]; omega⟩

/-- C9 (amended): as long as at most 1000 bonds and 1000 transactions are
stored (the fetch cap of `to_list(1000)`), the market statistics are the
claimed aggregates — total market value, trailing-24h volume and mean
yield each rounded to 2 decimal places — over the full catalog and log. -/
theorem C9_market_stats (bonds : List Bond) (txs : List BondTransaction) (now : ℚ)
    (hb : bonds.length ≤ 1000) (ht : txs.length ≤ 1000) :
    (get_market_stats bonds txs now).total_market_value =
      roundTo2 ((bonds.map (fun b => b.current_price * b.total_supply)).sum) ∧
    (get_market_stats bonds txs now).total_volume_24h =
      roundTo2 (((txs.filter (fun tx => now - tx.timestamp < 1)).map
        (fun tx => tx.total_amount)).sum) ∧
    (get_market_stats bonds txs now).average_yield =
      roundTo2 (if bonds.isEmpty then 0
        else (bonds.map (fun b => calculate_dynamic_yield b now)).sum / bonds.length) ∧
    (get_market_stats bonds txs now).active_bonds = bonds.length ∧
    (get_market_stats bonds txs now).total_transactions = txs.length := by
  have hb' : bonds.take 1000 = bonds := List.take_of_length_le hb
  have ht' : txs.take 1000 = txs := List.take_of_length_le ht
  simp only [get_market_stats, hb', ht']
  simp

def statBond : Bond :=
  { id := "st", country := "X", country_code := "XX", face_value := 1000
    coupon_rate := 5, maturity_days := 0, issue_date := "2024-01-01"
    current_price := 900, risk_factor := 1, currency := "USD"
    total_supply := 20, available_supply := 10 }

/-- Witness for C9 on a one-bond catalog and one-transaction log. -/
theorem C9_market_stats_witness :
    ([statBond].length ≤ 1000 ∧ [capTx].length ≤ 1000) ∧
    ((get_market_stats [statBond] [capTx] 0).total_market_value =
      roundTo2 (([statBond].map (fun b => b.current_price * b.total_supply)).sum) ∧
    (get_market_stats [statBond] [capTx] 0).total_volume_24h =
      roundTo2 ((([capTx].filter (fun tx => (0:ℚ) - tx.timestamp < 1)).map
        (fun tx => tx.total_amount)).sum) ∧
    (get_market_stats [statBond] [capTx] 0).average_yield =
      roundTo2 (if ([statBond] : List Bond).isEmpty then 0
        else ([statBond].map (fun b => calculate_dynamic_yield b 0)).sum /
          ([statBond] : List Bond).length) ∧
    (get_market_stats [statBond] [capTx] 0).active_bonds = [statBond].length ∧
    (get_market_stats [statBond] [capTx] 0).total_transactions = [capTx].length) :=
  ⟨⟨by simp, by simp⟩, C9_market_stats [statBond] [capTx] 0 (by simp) (by simp)⟩

/-! ### C6: portfolio cache recomputation -/

/-- Value of one holding at current catalog prices (0 when the referenced
bond is missing, matching the loop's `if bond_info:` skip). -/
def holdingValue (bonds : List Bond) (e : String × ℚ) : ℚ :=
  match findBond bonds e.1 with
  | some b => b.current_price * e.2
  | none => 0

/-- Claim-side total value: `Σ over holdings of current_price × quantity`. -/
def portfolioValueSpec (bonds : List Bond) (hs : List (String × ℚ)) : ℚ :=
  (hs.map (holdingValue bonds)).sum

/-- `yield(bond) × value` of one holding (0 when the bond is missing). -/
def holdingYieldValue (bonds : List Bond) (now : ℚ) (e : String × ℚ) : ℚ :=
  match findBond bonds e.1 with
  | some b => calculate_dynamic_yield b now * (b.current_price * e.2)
  | none => 0

/-- Claim-side total yield: the average of the bond yields weighted by each
holding's share of the total value, 0 when the total value is 0. -/
def weightedYieldSpec (bonds : List Bond) (now : ℚ) (hs : List (String × ℚ)) : ℚ :=
  if portfolioValueSpec bonds hs = 0 then 0
  else (hs.map (holdingYieldValue bonds now)).sum / portfolioValueSpec bonds hs

/-- What the loop actually accumulates into `total_yield`: each holding's
yield share is divided by the *running* value `v0 + value(e)` accumulated
so far (in insertion order), not by the final total. -/
def runningYieldAux (bonds : List Bond) (now : ℚ) : ℚ → List (String × ℚ) → ℚ
  | _, [] => 0
  | v0, e :: es =>
    match findBond bonds e.1 with
    | none => runningYieldAux bonds now v0 es
    | some b =>
      (if 0 < v0 + b.current_price * e.2 then
        calculate_dynamic_yield b now * (b.current_price * e.2) /
          (v0 + b.current_price * e.2)
      else 0) + runningYieldAux bonds now (v0 + b.current_price * e.2) es

/-- The settlement loop computes the value sum and the running-denominator
yield sum. -/
theorem recomputeTotals_eq (bonds : List Bond) (now : ℚ) (hs : List (String × ℚ)) :
    ∀ v0 y0, recomputeTotals bonds now hs (v0, y0) =
      (v0 + portfolioValueSpec bonds hs, y0 + runningYieldAux bonds now v0 hs) := by
  induction hs with
  | nil =>
    intro v0 y0
    simp [recomputeTotals, portfolioValueSpec, runningYieldAux]
  | cons e es ih =>
    intro v0 y0
    obtain ⟨bondId, quantity⟩ := e
    cases hfb : findBond bonds bondId with
    | none =>
      simp only [recomputeTotals, hfb]
      rw [ih]
      simp only [portfolioValueSpec, runningYieldAux, holdingValue, hfb,
        List.map_cons, List.sum_cons, Prod.mk.injEq]
      constructor <;> ring_nf
    | some b =>
      simp only [recomputeTotals, hfb]
      rw [ih]
      simp only [portfolioValueSpec, runningYieldAux, holdingValue, hfb,
        List.map_cons, List.sum_cons, Prod.mk.injEq]
      constructor <;> ring_nf

/-- After `replace_one(upsert=True)` the lookup by the same key returns the
upserted document. -/
theorem findPortfolio_replaceFirst (addr : String) (p : Portfolio)
    (ps : List Portfolio) (hp : p.user_address = addr) :
    findPortfolio (replacePortfolioFirst addr p ps) addr = some p := by
  induction ps with
  | nil =>
    simp [replacePortfolioFirst, findPortfolio, List.find?_cons, hp]
  | cons q qs ih =>
    by_cases h : q.user_address = addr
    · simp [replacePortfolioFirst, h, findPortfolio, List.find?_cons, hp]
    · simp only [replacePortfolioFirst, if_neg h]
      unfold findPortfolio at ih ⊢
      rw [List.find?_cons_of_neg _ (by simpa using h)]
      exact ih

/-- The portfolio stored for the requesting user after a settlement (the
empty portfolio when the settlement failed or stored nothing). -/
def storedPortfolio (t : TradeRequest) (st : ServerState) (now : ℚ) : Portfolio :=
  (findPortfolio (postState (execute_trade t st now)).portfolios
    t.user_address).getD emptyPortfolio

/-- C6 (amended): after every successful settlement the requester's stored
portfolio caches satisfy `total_value = round₂(Σ current_price × quantity)`
and `total_yield = round₂(Σ yieldᵢ × valueᵢ / Vᵢ)` where `Vᵢ` is the
*running* value through holding `i` in insertion order (a term is 0 when
its running value is not positive or its bond is missing). -/
theorem C6_portfolio_caches (t : TradeRequest) (st : ServerState) (now : ℚ)
    (h : (execute_trade t st now).isOk = true) :
    (storedPortfolio t st now).total_value =
      roundTo2 (portfolioValueSpec (postState (execute_trade t st now)).bonds
        (storedPortfolio t st now).bonds) ∧
    (storedPortfolio t st now).total_yield =
      roundTo2 (runningYieldAux (postState (execute_trade t st now)).bonds now 0
        (storedPortfolio t st now).bonds) := by
  cases hfb : findBond st.bonds t.bond_id with
  | none =>
    rw [execute_trade, hfb] at h
    simp [Except.isOk, Except.toBool] at h
  | some bond =>
    by_cases hc : t.transaction_type = "buy" ∧ t.quantity > bond.available_supply
    · rw [execute_trade, hfb] at h
      simp only [if_pos hc] at h
      simp [Except.isOk, Except.toBool] at h
    · cases hfp : findPortfolio st.portfolios t.user_address with
      | none =>
        simp only [storedPortfolio, execute_trade, hfb, if_neg hc, hfp, postState]
        rw [findPortfolio_replaceFirst t.user_address _ st.portfolios rfl]
        simp only [Option.getD_some]
        rw [recomputeTotals_eq]
        simp
      | some p =>
        simp only [storedPortfolio, execute_trade, hfb, if_neg hc, hfp, postState]
        rw [findPortfolio_replaceFirst t.user_address _ st.portfolios
          (by simpa using portfolio_address_of_find hfp)]
        simp only [Option.getD_some]
        rw [recomputeTotals_eq]
        simp

def c6b1 : Bond :=
  { id := "cb1", country := "A", country_code := "AA", face_value := 100
    coupon_rate := 10, maturity_days := 0, issue_date := "2024-01-01"
    current_price := 100001/1000, risk_factor := 0, currency := "USD"
    total_supply := 10, available_supply := 5 }

def c6b2 : Bond :=
  { id := "cb2", country := "B", country_code := "BB", face_value := 100
    coupon_rate := 20, maturity_days := 0, issue_date := "2024-01-01"
    current_price := 100, risk_factor := 0, currency := "USD"
    total_supply := 10, available_supply := 10 }

def c6Holder : Portfolio :=
  { user_address := "u", bonds := [("cb1", 1)], total_value := 100001/1000
    total_yield := 10, created_at := 0 }

def c6State : ServerState :=
  { bonds := [c6b1, c6b2], transactions := [], portfolios := [c6Holder] }

def c6Trade : TradeRequest :=
  { user_address := "u", bond_id := "cb2", quantity := 1, transaction_type := "buy" }

/-- C6 counterexample: the user ends up holding one unit of a bond priced
100.001 (yield 10) and one unit of a bond priced 100 (yield 20).  The code
stores `total_value = 200` (the claim's unrounded sum is 200.001) and
`total_yield = 20`, while the weighted average of the yields is 15: the
loop divides each yield share by the running total instead of the final
total. -/
theorem C6_weighted_average_counterexample :
    (execute_trade c6Trade c6State 0).isOk = true ∧
    (storedPortfolio c6Trade c6State 0).total_value = 200 ∧
    portfolioValueSpec (postState (execute_trade c6Trade c6State 0)).bonds
        (storedPortfolio c6Trade c6State 0).bonds = 200001/1000 ∧
    (storedPortfolio c6Trade c6State 0).total_value ≠
      portfolioValueSpec (postState (execute_trade c6Trade c6State 0)).bonds
        (storedPortfolio c6Trade c6State 0).bonds ∧
    (storedPortfolio c6Trade c6State 0).total_yield = 20 ∧
    roundTo2 (weightedYieldSpec (postState (execute_trade c6Trade c6State 0)).bonds 0
        (storedPortfolio c6Trade c6State 0).bonds) = 15 ∧
    (storedPortfolio c6Trade c6State 0).total_yield ≠
      roundTo2 (weightedYieldSpec (postState (execute_trade c6Trade c6State 0)).bonds 0
        (storedPortfolio c6Trade c6State 0).bonds) := by
  have hv : roundTo2 (200001/1000 : ℚ) = 200 := by
    rw [roundTo2_eq_low _ 20000 (by norm_num) (by norm_num)]
    norm_num
  have hy : roundTo2 (4000010/200001 : ℚ) = 20 := by
    rw [roundTo2_eq_high _ 1999 (by norm_num) (by norm_num)]
    norm_num
  have hw : roundTo2 (3000010/200001 : ℚ) = 15 := by
    rw [roundTo2_eq_high _ 1499 (by norm_num) (by norm_num)]
    norm_num
  have h10 : roundTo2 (10 : ℚ) = 10 := by
    rw [roundTo2_eq_low _ 1000 (by norm_num) (by norm_num)]
    norm_num
  have h20 : roundTo2 (20 : ℚ) = 20 := by
    rw [roundTo2_eq_low _ 2000 (by norm_num) (by norm_num)]
    norm_num
  simp only [storedPortfolio, postState, execute_trade, findBond, findPortfolio,
    setAvailableFirst, replacePortfolioFirst, updateHoldings, dictContains, dictGet,
    dictSet, dictDelete, recomputeTotals, calculate_dynamic_yield, dynamicYieldDays,
    portfolioValueSpec, holdingValue, weightedYieldSpec, holdingYieldValue,
    c6State, c6b1, c6b2, c6Holder, c6Trade,
    List.find?, List.any, Except.isOk, Except.toBool, String.reduceEq, reduceIte,
    decide_True, decide_False, Bool.false_or, Option.map, Option.getD,
    List.map_cons, List.map_nil, List.sum_cons, List.sum_nil]
  norm_num [h10, h20, hv, hy, hw]

/-- Witness for C6 at the same successful trade. -/
theorem C6_portfolio_caches_witness :
    (execute_trade c6Trade c6State 0).isOk = true ∧
    ((storedPortfolio c6Trade c6State 0).total_value =
      roundTo2 (portfolioValueSpec (postState (execute_trade c6Trade c6State 0)).bonds
        (storedPortfolio c6Trade c6State 0).bonds) ∧
    (storedPortfolio c6Trade c6State 0).total_yield =
      roundTo2 (runningYieldAux (postState (execute_trade c6Trade c6State 0)).bonds 0 0
        (storedPortfolio c6Trade c6State 0).bonds)) :=
  ⟨by
    simp only [execute_trade, findBond, findPortfolio, setAvailableFirst,
      replacePortfolioFirst, updateHoldings, dictContains, dictGet, dictSet, dictDelete,
      recomputeTotals, c6State, c6b1, c6b2, c6Holder, c6Trade,
      List.find?, List.any, Except.isOk, Except.toBool, String.reduceEq, reduceIte,
      decide_True, decide_False, Bool.false_or, Option.map, Option.getD]
    norm_num,
   C6_portfolio_caches c6Trade c6State 0 (by
    simp only [execute_trade, findBond, findPortfolio, setAvailableFirst,
      replacePortfolioFirst, updateHoldings, dictContains, dictGet, dictSet, dictDelete,
      recomputeTotals, c6State, c6b1, c6b2, c6Holder, c6Trade,
      List.find?, List.any, Except.isOk, Except.toBool, String.reduceEq, reduceIte,
      decide_True, decide_False, Bool.false_or, Option.map, Option.getD]
    norm_num)⟩

end EthNEAR
